import Mathlib

/-!
Shallow embedding of `src/automation.py` (MoneyPrinter automation script).

The Python module defines a class `MoneyPrinterAutomation` whose state, as far
as the scheduling logic is concerned, is the loaded configuration dictionary
and the mutable integer `topic_index` (starting at 0).  We embed:

* the configuration dictionary as a structure of `Option` fields — `none`
  models an absent key, and Python's `dict.get(key, default)` becomes
  `Option.getD`;
* `get_next_topic` as a pure function from the configuration, the current
  `topic_index` and an explicit random draw to the selected topic and the new
  `topic_index`;
* `generate_video` split into the request payload it builds (`request_data`)
  and the classification of the HTTP outcome (`generate_video`), where the
  outcome of `requests.post` is an explicit `HttpResult` value covering the
  exception classes the code catches;
* `run_once` as a pure function that additionally records the observable
  effects (topic selection, network call) it performs;
* `run_daemon` as fuel-based recursion over a finite list of cycle events,
  with time modelled by rationals (Python `datetime` arithmetic is exact to
  the microsecond; nothing in the claims depends on float rounding), and the
  `KeyboardInterrupt` modelled as an event that aborts the loop and is caught
  by the surrounding handler.
-/

/-- The nested `video_settings` record of the configuration file.  Every field
may be absent; `automation.py` reads each with `settings.get(key, default)`. -/
structure VideoSettings where
  ai_model : Option String
  voice : Option String
  paragraph_number : Option Int
  automate_youtube_upload : Option Bool
  use_music : Option Bool
  zip_url : Option String
  threads : Option Int
  subtitles_position : Option String
  custom_prompt : Option String
  subtitles_color : Option String
deriving Repr, DecidableEq

/-- The `video_settings` value used when the key is absent: `config.get(
'video_settings', \x7b\x7d)` yields an empty dict, in which every lookup
falls back to its default. -/
def VideoSettings.empty : VideoSettings :=
  ⟨none, none, none, none, none, none, none, none, none, none⟩

/-- The top-level configuration dictionary, restricted to the keys
`automation.py` reads.  `none` models an absent key. -/
structure Config where
  enabled : Option Bool
  video_topics : Option (List String)
  topic_selection_mode : Option String
  generation_interval_hours : Option Rat
  video_settings : Option VideoSettings
deriving Repr, DecidableEq

/-- `DEFAULT_INTERVAL_HOURS = 24` (line 27 of `automation.py`). -/
def DEFAULT_INTERVAL_HOURS : Rat := 24

/-- `MoneyPrinterAutomation.get_next_topic` (lines 72–89).  Reads
`video_topics` (default `[]`); an empty list logs and returns `None`.
Otherwise reads `topic_selection_mode` (default `"sequential"`); in random
mode returns `random.choice(topics)` — modelled by an explicit draw `rand`,
reduced modulo the length so that every draw picks an actual element — and in
every other mode returns `topics[topic_index % len(topics)]` and increments
`topic_index`.  Returns the selected topic (or `none`) and the new
`topic_index`. -/
def get_next_topic (config : Config) (topic_index : Nat) (rand : Nat) :
    Option String × Nat :=
  let topics := config.video_topics.getD []
  if h : topics.isEmpty then
    (none, topic_index)
  else
    have hpos : 0 < topics.length := List.length_pos.mpr (by simpa using h)
    let selection_mode := config.topic_selection_mode.getD "sequential"
    if selection_mode = "random" then
      (some (topics.get ⟨rand % topics.length, Nat.mod_lt _ hpos⟩), topic_index)
    else
      (some (topics.get ⟨topic_index % topics.length, Nat.mod_lt _ hpos⟩),
        topic_index + 1)

/-- The JSON request body built by `generate_video` (lines 98–110). -/
structure RequestData where
  videoSubject : String
  aiModel : String
  voice : String
  paragraphNumber : Int
  automateYoutubeUpload : Bool
  useMusic : Bool
  zipUrl : String
  threads : Int
  subtitlesPosition : String
  customPrompt : String
  color : String
deriving Repr, DecidableEq

/-- The payload `data` of `generate_video` (lines 95–110): each field is
`settings.get(key, default)` over `config.get('video_settings', \x7b\x7d)`. -/
def request_data (config : Config) (topic : String) : RequestData :=
  let settings := config.video_settings.getD VideoSettings.empty
  { videoSubject := topic
    aiModel := settings.ai_model.getD "g4f"
    voice := settings.voice.getD "en_us_001"
    paragraphNumber := settings.paragraph_number.getD 1
    automateYoutubeUpload := settings.automate_youtube_upload.getD false
    useMusic := settings.use_music.getD false
    zipUrl := settings.zip_url.getD ""
    threads := settings.threads.getD 2
    subtitlesPosition := settings.subtitles_position.getD "center,bottom"
    customPrompt := settings.custom_prompt.getD ""
    color := settings.subtitles_color.getD "#FFFF00" }

/-- The outcome of the single `requests.post` call in `generate_video`
(lines 112–141).  `response` carries whether `raise_for_status()` passes
(HTTP 2xx) and the `status` field of the JSON body (`none` when absent);
the other constructors are the exception classes the code catches:
`requests.exceptions.ConnectionError`, `requests.exceptions.Timeout`, and
any other `requests.exceptions.RequestException`. -/
inductive HttpResult where
  | response (httpOk : Bool) (jsonStatus : Option String)
  | connectionError
  | timeout
  | requestException
deriving Repr, DecidableEq

/-- `MoneyPrinterAutomation.generate_video` outcome classification
(lines 112–141): `raise_for_status()` turns a non-2xx response into a
`RequestException` (caught, `False`); a 2xx response returns `True` exactly
when the JSON `status` equals `"success"`; every caught exception returns
`False`.  Total — no exception escapes. -/
def generate_video (config : Config) (topic : String) (net : HttpResult) :
    Bool :=
  match net with
  | HttpResult.response httpOk jsonStatus =>
      if httpOk then decide (jsonStatus = some "success") else false
  | HttpResult.connectionError => false
  | HttpResult.timeout => false
  | HttpResult.requestException => false

/-- Observable effects of one `run_once` cycle: invoking `get_next_topic`,
and issuing the single `requests.post` with its payload. -/
inductive Effect where
  | selectTopic
  | networkCall (payload : RequestData)
deriving Repr, DecidableEq

/-- Whether an effect list contains a network call. -/
def attempts_network : List Effect → Bool
  | [] => false
  | Effect.networkCall _ :: _ => true
  | Effect.selectTopic :: rest => attempts_network rest

/-- Number of network calls in an effect list. -/
def network_call_count : List Effect → Nat
  | [] => 0
  | Effect.networkCall _ :: rest => network_call_count rest + 1
  | Effect.selectTopic :: rest => network_call_count rest

/-- `MoneyPrinterAutomation.run_once` (lines 143–153).  If
`config.get('enabled', False)` is falsy, returns `False` at once.  Otherwise
selects a topic; `if not topic` — `None` or the empty string — returns
`False` without a network call; otherwise calls `generate_video` and returns
its boolean.  The result carries the returned boolean, the new
`topic_index`, and the effects performed. -/
def run_once (config : Config) (topic_index : Nat) (rand : Nat)
    (net : HttpResult) : Bool × Nat × List Effect :=
  if config.enabled.getD false = false then
    (false, topic_index, [])
  else
    let r := get_next_topic config topic_index rand
    match r.1 with
    | none => (false, r.2, [Effect.selectTopic])
    | some topic =>
        if topic = "" then
          (false, r.2, [Effect.selectTopic])
        else
          (generate_video config topic net, r.2,
            [Effect.selectTopic, Effect.networkCall (request_data config topic)])

/-- Interval resolution at the top of `run_daemon` (lines 155–158): the
explicit `interval_hours` argument when not `None`, else
`config.get('generation_interval_hours', DEFAULT_INTERVAL_HOURS)`. -/
def resolve_interval (config : Config) (interval_hours : Option Rat) : Rat :=
  match interval_hours with
  | some h => h
  | none => config.generation_interval_hours.getD DEFAULT_INTERVAL_HOURS

/-- One cycle of daemon input: either the external `KeyboardInterrupt`
arrives, or the cycle runs with a given wall-clock duration (seconds from
`start_time` to the `datetime.now()` of line 183), a random draw and a
network outcome. -/
inductive CycleEvent where
  | interrupt
  | cycle (duration : Rat) (rand : Nat) (net : HttpResult)
deriving Repr, DecidableEq

/-- The scheduling shape of an event: `interrupt`, or its duration —
forgetting the random draw and the network outcome. -/
def CycleEvent.shape : CycleEvent → Option Rat
  | CycleEvent.interrupt => none
  | CycleEvent.cycle d _ _ => some d

/-- Lines 182–190 of `run_daemon`: `next_run = start_time + interval`,
`wait_seconds = next_run - now`; if `wait_seconds > 0` the loop sleeps for
`wait_seconds` (waking at `now + wait_seconds`), otherwise it proceeds
immediately.  Returns whether it slept, and the time the next cycle
starts. -/
def daemon_step (interval_seconds start_time now : Rat) : Bool × Rat :=
  let next_run := start_time + interval_seconds
  let wait_seconds := next_run - now
  if 0 < wait_seconds then (true, now + wait_seconds) else (false, now)

/-- Result of the `while True` loop body of `run_daemon` (lines 166–191)
over a finite list of cycle events: either a `KeyboardInterrupt` escaped the
loop, or the fuel ran out with the loop still going at the given time and
`topic_index`. -/
inductive LoopResult where
  | raised (topic_index : Nat)
  | outOfFuel (time : Rat) (topic_index : Nat)
deriving Repr, DecidableEq

/-- The `while True` loop of `run_daemon` (lines 166–191): each iteration
records `start_time`, runs `run_once`, computes `next_run = start_time +
interval` and sleeps when `now < next_run` (the success flag of the cycle is
only logged — scheduling is identical for success and failure).  An
interrupt raises out of the loop. -/
def daemon_loop (config : Config) (interval_seconds : Rat) :
    List CycleEvent → Rat → Nat → LoopResult
  | [], t, idx => LoopResult.outOfFuel t idx
  | CycleEvent.interrupt :: _, _, idx => LoopResult.raised idx
  | CycleEvent.cycle d rand net :: rest, t, idx =>
      let r := run_once config idx rand net
      let now := t + d
      let step := daemon_step interval_seconds t now
      daemon_loop config interval_seconds rest step.2 r.2.1

/-- Observable outcome of `run_daemon`: stopped cleanly (the
`except KeyboardInterrupt` handler of line 192 caught the interrupt, logged
and returned), or still running when the fuel ran out. -/
inductive DaemonOutcome where
  | stopped (topic_index : Nat)
  | running (time : Rat) (topic_index : Nat)
deriving Repr, DecidableEq

/-- `MoneyPrinterAutomation.run_daemon` (lines 155–193): resolves the
interval, converts it to seconds, runs the loop from time `t0` with
`topic_index = 0`, and catches `KeyboardInterrupt` — turning it into a clean
return. -/
def run_daemon (config : Config) (interval_hours : Option Rat) (t0 : Rat)
    (events : List CycleEvent) : DaemonOutcome :=
  let ih := resolve_interval config interval_hours
  let interval_seconds := ih * 3600
  match daemon_loop config interval_seconds events t0 0 with
  | LoopResult.raised idx => DaemonOutcome.stopped idx
  | LoopResult.outOfFuel t idx => DaemonOutcome.running t idx

/-- State of the cursor after `k` successive calls to `get_next_topic`
starting from `topic_index = 0` (the constructor sets it to 0, line 37),
with a fixed random draw (irrelevant in sequential mode). -/
def index_after (config : Config) : Nat → Nat
  | 0 => 0
  | k + 1 => (get_next_topic config (index_after config k) 0).2

/-- The topic returned by the `(k+1)`-th call to `get_next_topic` in a fresh
instance (0-indexed: `nth_call config 0` is the first call). -/
def nth_call (config : Config) (k : Nat) : Option String :=
  (get_next_topic config (index_after config k) 0).1

/-- The configuration of the spec scenario: three topics, sequential mode. -/
def seqConfig3 : Config :=
  { enabled := some true
    video_topics := some ["Topic 1", "Topic 2", "Topic 3"]
    topic_selection_mode := some "sequential"
    generation_interval_hours := none
    video_settings := none }

/-- A one-topic sequential configuration, used to exhibit the unbounded
growth of `topic_index`. -/
def singleTopicConfig : Config :=
  { enabled := some true
    video_topics := some ["Topic 1"]
    topic_selection_mode := some "sequential"
    generation_interval_hours := none
    video_settings := none }

/-! ## Basic facts about `get_next_topic` -/

/-- With an empty topic list (lines 74–78), `get_next_topic` returns `None`
and leaves `topic_index` unchanged. -/
theorem get_next_topic_empty (config : Config) (idx rand : Nat)
    (hE : config.video_topics.getD [] = []) :
    get_next_topic config idx rand = (none, idx) := by
  rw [get_next_topic]
  simp [hE]

/-- In any non-random mode with a nonempty topic list, `get_next_topic`
returns `topics[topic_index % len(topics)]` and increments the index. -/
theorem get_next_topic_sequential (config : Config) (idx rand : Nat)
    (hmode : config.topic_selection_mode.getD "sequential" ≠ "random")
    (hne : config.video_topics.getD [] ≠ []) :
    (get_next_topic config idx rand).1 =
      (config.video_topics.getD [])[idx % (config.video_topics.getD []).length]? ∧
    (get_next_topic config idx rand).2 = idx + 1 := by
  have hE : (config.video_topics.getD []).isEmpty = false := by
    simpa using hne
  have hpos : 0 < (config.video_topics.getD []).length :=
    List.length_pos.mpr hne
  rw [get_next_topic]
  simp only [hE, Bool.false_eq_true, not_false_eq_true, dite_eq_ite, if_false,
    dif_neg, hmode, if_neg]
  exact ⟨(List.getElem?_eq_getElem (Nat.mod_lt _ hpos)).symm, trivial⟩

/-- In random mode with a nonempty topic list, `get_next_topic` returns the
drawn element and leaves the index unchanged. -/
theorem get_next_topic_random (config : Config) (idx rand : Nat)
    (hmode : config.topic_selection_mode.getD "sequential" = "random")
    (hne : config.video_topics.getD [] ≠ []) :
    (get_next_topic config idx rand).1 =
      (config.video_topics.getD [])[rand % (config.video_topics.getD []).length]? ∧
    (get_next_topic config idx rand).2 = idx := by
  have hE : (config.video_topics.getD []).isEmpty = false := by
    simpa using hne
  have hpos : 0 < (config.video_topics.getD []).length :=
    List.length_pos.mpr hne
  rw [get_next_topic]
  simp only [hE, Bool.false_eq_true, not_false_eq_true, dite_eq_ite, if_false,
    dif_neg, hmode, if_pos]
  exact ⟨(List.getElem?_eq_getElem (Nat.mod_lt _ hpos)).symm, trivial⟩

/-- In sequential mode the cursor after `k` calls is exactly `k`. -/
theorem index_after_sequential (config : Config)
    (hmode : config.topic_selection_mode.getD "sequential" ≠ "random")
    (hne : config.video_topics.getD [] ≠ []) :
    ∀ k, index_after config k = k := by
  intro k
  induction k with
  | zero => rfl
  | succ n ih =>
      rw [index_after, ih, (get_next_topic_sequential config n 0 hmode hne).2]

/-! ## C1 — sequential round-robin -/

/-- C1: In sequential mode with a topic list of `N` distinct topics, the
`i`-th call to `get_next_topic` returns `topics[(i-1) % N]` (here 0-indexed:
`nth_call config k` is call number `k+1` and returns `topics[k % N]`); call
`N+1` returns the same topic as call 1; the first `N` calls are pairwise
distinct when the topics are distinct; and for
`["Topic 1","Topic 2","Topic 3"]` four successive calls return
`"Topic 1","Topic 2","Topic 3","Topic 1"`. -/
theorem seq_mode_round_robin (config : Config) (N : Nat)
    (hN : (config.video_topics.getD []).length = N) (hpos : 0 < N)
    (hmode : config.topic_selection_mode.getD "sequential" ≠ "random") :
    (∀ k, nth_call config k = (config.video_topics.getD [])[k % N]?) ∧
    nth_call config N = nth_call config 0 ∧
    ((config.video_topics.getD []).Nodup →
      ∀ j k, j < N → k < N → j ≠ k → nth_call config j ≠ nth_call config k) ∧
    (nth_call seqConfig3 0 = some "Topic 1" ∧
      nth_call seqConfig3 1 = some "Topic 2" ∧
      nth_call seqConfig3 2 = some "Topic 3" ∧
      nth_call seqConfig3 3 = some "Topic 1") := by
  have hne : config.video_topics.getD [] ≠ [] := by
    intro hcon
    rw [hcon] at hN
    simp at hN
    omega
  have hmain : ∀ k, nth_call config k = (config.video_topics.getD [])[k % N]? := by
    intro k
    rw [nth_call, index_after_sequential config hmode hne k]
    rw [(get_next_topic_sequential config k 0 hmode hne).1, hN]
  refine ⟨hmain, ?_, ?_, ?_⟩
  · rw [hmain N, hmain 0, Nat.mod_self, Nat.zero_mod]
  · intro hnodup j k hj hk hjk
    rw [hmain j, hmain k, Nat.mod_eq_of_lt hj, Nat.mod_eq_of_lt hk]
    rw [List.getElem?_eq_getElem (by omega), List.getElem?_eq_getElem (by omega)]
    simp only [ne_eq, Option.some_inj]
    rw [List.Nodup.getElem_inj_iff hnodup]
    exact hjk
  · exact ⟨rfl, rfl, rfl, rfl⟩

/-- Witness for C1 at the concrete scenario configuration. -/
theorem seq_mode_round_robin_witness :
    nth_call seqConfig3 3 = nth_call seqConfig3 0 :=
  (seq_mode_round_robin seqConfig3 3 rfl (by decide) (by decide)).2.1

/-! ## C2 — request payload fields -/

/-- The configuration of the video-settings test scenario: explicit
`ai_model "gpt4"`, `voice "en_us_002"`, `paragraph_number 3`, `threads 4`,
`use_music true`. -/
def settingsConfig : Config :=
  { enabled := some true
    video_topics := some ["Test Topic"]
    topic_selection_mode := none
    generation_interval_hours := none
    video_settings := some
      { ai_model := some "gpt4"
        voice := some "en_us_002"
        paragraph_number := some 3
        automate_youtube_upload := none
        use_music := some true
        zip_url := none
        threads := some 4
        subtitles_position := none
        custom_prompt := none
        subtitles_color := none } }

/-- C2: for every topic and every video-settings record, the request payload
has `videoSubject` equal to the selected topic; every configured field value
appears exactly (second block, one clause per field of the effective
settings — `config.get('video_settings', empty)`); and every absent field
falls back to its documented default: `aiModel "g4f"`, `voice "en_us_001"`,
`paragraphNumber 1`, `threads 2`, `subtitlesPosition "center,bottom"`,
`color "#FFFF00"`, `automateYoutubeUpload` and `useMusic` `false` (third
block). -/
theorem generate_video_payload (config : Config) (topic : String) :
    (request_data config topic).videoSubject = topic ∧
    ((∀ v, (config.video_settings.getD VideoSettings.empty).ai_model = some v →
        (request_data config topic).aiModel = v) ∧
     (∀ v, (config.video_settings.getD VideoSettings.empty).voice = some v →
        (request_data config topic).voice = v) ∧
     (∀ v, (config.video_settings.getD VideoSettings.empty).paragraph_number = some v →
        (request_data config topic).paragraphNumber = v) ∧
     (∀ v, (config.video_settings.getD VideoSettings.empty).threads = some v →
        (request_data config topic).threads = v) ∧
     (∀ v, (config.video_settings.getD VideoSettings.empty).use_music = some v →
        (request_data config topic).useMusic = v) ∧
     (∀ v, (config.video_settings.getD VideoSettings.empty).automate_youtube_upload = some v →
        (request_data config topic).automateYoutubeUpload = v) ∧
     (∀ v, (config.video_settings.getD VideoSettings.empty).subtitles_position = some v →
        (request_data config topic).subtitlesPosition = v) ∧
     (∀ v, (config.video_settings.getD VideoSettings.empty).subtitles_color = some v →
        (request_data config topic).color = v)) ∧
    (((config.video_settings.getD VideoSettings.empty).ai_model = none →
        (request_data config topic).aiModel = "g4f") ∧
     ((config.video_settings.getD VideoSettings.empty).voice = none →
        (request_data config topic).voice = "en_us_001") ∧
     ((config.video_settings.getD VideoSettings.empty).paragraph_number = none →
        (request_data config topic).paragraphNumber = 1) ∧
     ((config.video_settings.getD VideoSettings.empty).threads = none →
        (request_data config topic).threads = 2) ∧
     ((config.video_settings.getD VideoSettings.empty).subtitles_position = none →
        (request_data config topic).subtitlesPosition = "center,bottom") ∧
     ((config.video_settings.getD VideoSettings.empty).subtitles_color = none →
        (request_data config topic).color = "#FFFF00") ∧
     ((config.video_settings.getD VideoSettings.empty).automate_youtube_upload = none →
        (request_data config topic).automateYoutubeUpload = false) ∧
     ((config.video_settings.getD VideoSettings.empty).use_music = none →
        (request_data config topic).useMusic = false)) := by
  refine ⟨rfl, ⟨?_, ?_, ?_, ?_, ?_, ?_, ?_, ?_⟩, ⟨?_, ?_, ?_, ?_, ?_, ?_, ?_, ?_⟩⟩ <;>
    intros <;> simp_all [request_data]

/-- Witness for C2 at the video-settings test scenario: the configured
values appear exactly in the payload. -/
theorem generate_video_payload_witness :
    (request_data settingsConfig "Test Topic").aiModel = "gpt4" ∧
    (request_data settingsConfig "Test Topic").voice = "en_us_002" ∧
    (request_data settingsConfig "Test Topic").paragraphNumber = 3 ∧
    (request_data settingsConfig "Test Topic").threads = 4 ∧
    (request_data settingsConfig "Test Topic").useMusic = true :=
  ⟨(generate_video_payload settingsConfig "Test Topic").2.1.1 "gpt4" rfl,
   (generate_video_payload settingsConfig "Test Topic").2.1.2.1 "en_us_002" rfl,
   (generate_video_payload settingsConfig "Test Topic").2.1.2.2.1 3 rfl,
   (generate_video_payload settingsConfig "Test Topic").2.1.2.2.2.1 4 rfl,
   (generate_video_payload settingsConfig "Test Topic").2.1.2.2.2.2.1 true rfl⟩

/-! ## Unfolding lemmas for `run_once` -/

/-- When `config.get('enabled', False)` is falsy, `run_once` returns `False`
at once: index unchanged, no effects. -/
theorem run_once_disabled (config : Config) (idx rand : Nat)
    (net : HttpResult) (hen : config.enabled.getD false = false) :
    run_once config idx rand net = (false, idx, []) := by
  rw [run_once, if_pos hen]

/-- When enabled but topic selection yields `None`, `run_once` returns
`False` after only the selection effect. -/
theorem run_once_no_topic (config : Config) (idx rand : Nat)
    (net : HttpResult) (hen : ¬ config.enabled.getD false = false)
    (hg : (get_next_topic config idx rand).1 = none) :
    run_once config idx rand net =
      (false, (get_next_topic config idx rand).2, [Effect.selectTopic]) := by
  rw [run_once, if_neg hen]
  simp only [hg]

/-- When enabled and a non-falsy topic is selected, `run_once` performs the
network call with the built payload and returns the outcome of
`generate_video`. -/
theorem run_once_selected (config : Config) (idx rand : Nat)
    (net : HttpResult) (topic : String)
    (hen : ¬ config.enabled.getD false = false)
    (hg : (get_next_topic config idx rand).1 = some topic)
    (ht : topic ≠ "") :
    run_once config idx rand net =
      (generate_video config topic net, (get_next_topic config idx rand).2,
        [Effect.selectTopic, Effect.networkCall (request_data config topic)]) := by
  rw [run_once, if_neg hen]
  simp only [hg, if_neg ht]

/-! ## C3 — cursor range invariant -/

/-- C3 counterexample: with one configured topic (`topic_count = 1 > 0`),
one sequential call leaves `topic_index = 1`, which is not in `[0, 1)`: the
raw cursor grows without bound (`self.topic_index += 1` on line 87 has no
modulo). -/
theorem cursor_range_counterexample :
    0 < (singleTopicConfig.video_topics.getD []).length ∧
    ¬ ((get_next_topic singleTopicConfig 0 0).2 <
        (singleTopicConfig.video_topics.getD []).length) := by
  decide

/-- C3 amended: the effective cursor `topic_index % topic_count` is always
in `[0, topic_count)` when `topic_count > 0` — so every sequential access
`topics[topic_index % len(topics)]` is in bounds and returns an element of
the list, before and after the call — and when `topic_count = 0` every
operation is a no-op: `get_next_topic` returns the no-topic signal with the
cursor unchanged, and `run_once` returns `False` without a network call;
nothing raises. -/
theorem cursor_effective_range (config : Config) (idx rand : Nat)
    (net : HttpResult) :
    (0 < (config.video_topics.getD []).length →
      idx % (config.video_topics.getD []).length <
        (config.video_topics.getD []).length ∧
      (get_next_topic config idx rand).2 % (config.video_topics.getD []).length <
        (config.video_topics.getD []).length ∧
      ∃ t, (get_next_topic config idx rand).1 = some t ∧
        t ∈ config.video_topics.getD []) ∧
    ((config.video_topics.getD []).length = 0 →
      get_next_topic config idx rand = (none, idx) ∧
      (run_once config idx rand net).1 = false ∧
      attempts_network (run_once config idx rand net).2.2 = false) := by
  constructor
  · intro hpos
    have hne : config.video_topics.getD [] ≠ [] := by
      intro hcon
      rw [hcon] at hpos
      simp at hpos
    refine ⟨Nat.mod_lt _ hpos, ?_, ?_⟩
    · by_cases hm : config.topic_selection_mode.getD "sequential" = "random"
      · rw [(get_next_topic_random config idx rand hm hne).2]
        exact Nat.mod_lt _ hpos
      · rw [(get_next_topic_sequential config idx rand hm hne).2]
        exact Nat.mod_lt _ hpos
    · by_cases hm : config.topic_selection_mode.getD "sequential" = "random"
      · rw [(get_next_topic_random config idx rand hm hne).1,
          List.getElem?_eq_getElem (Nat.mod_lt _ hpos)]
        exact ⟨_, rfl, List.getElem_mem _⟩
      · rw [(get_next_topic_sequential config idx rand hm hne).1,
          List.getElem?_eq_getElem (Nat.mod_lt _ hpos)]
        exact ⟨_, rfl, List.getElem_mem _⟩
  · intro h0
    have hE : config.video_topics.getD [] = [] := List.length_eq_zero.mp h0
    have hg := get_next_topic_empty config idx rand hE
    refine ⟨hg, ?_, ?_⟩
    · by_cases hen : config.enabled.getD false = false
      · rw [run_once_disabled config idx rand net hen]
      · rw [run_once_no_topic config idx rand net hen (by rw [hg])]
    · by_cases hen : config.enabled.getD false = false
      · rw [run_once_disabled config idx rand net hen]
        rfl
      · rw [run_once_no_topic config idx rand net hen (by rw [hg])]
        rfl

/-- Witness for C3 amended at a concrete one-topic configuration. -/
theorem cursor_effective_range_witness :
    (get_next_topic singleTopicConfig 0 0).2 %
        (singleTopicConfig.video_topics.getD []).length <
      (singleTopicConfig.video_topics.getD []).length :=
  ((cursor_effective_range singleTopicConfig 0 0 HttpResult.timeout).1
    (by decide)).2.1

/-! ## C4 — empty topic list -/

/-- A configuration that is enabled but has an empty topic list. -/
def emptyTopicsConfig : Config :=
  { enabled := some true
    video_topics := some []
    topic_selection_mode := none
    generation_interval_hours := none
    video_settings := none }

/-- C4: for every configuration whose topic list is empty, `get_next_topic`
returns the no-topic signal `None` (total function — nothing raises), and
`run_once` then returns `False` without attempting a network call. -/
theorem empty_topics_no_crash (config : Config) (idx rand : Nat)
    (net : HttpResult) (hE : config.video_topics.getD [] = []) :
    get_next_topic config idx rand = (none, idx) ∧
    (run_once config idx rand net).1 = false ∧
    attempts_network (run_once config idx rand net).2.2 = false := by
  have hg := get_next_topic_empty config idx rand hE
  refine ⟨hg, ?_, ?_⟩ <;> by_cases hen : config.enabled.getD false = false
  · rw [run_once_disabled config idx rand net hen]
  · rw [run_once_no_topic config idx rand net hen (by rw [hg])]
  · rw [run_once_disabled config idx rand net hen]
    rfl
  · rw [run_once_no_topic config idx rand net hen (by rw [hg])]
    rfl

/-- Witness for C4 at a concrete enabled configuration with no topics. -/
theorem empty_topics_no_crash_witness :
    get_next_topic emptyTopicsConfig 0 0 = (none, 0) ∧
    (run_once emptyTopicsConfig 0 0 HttpResult.timeout).1 = false ∧
    attempts_network (run_once emptyTopicsConfig 0 0 HttpResult.timeout).2.2 =
      false :=
  empty_topics_no_crash emptyTopicsConfig 0 0 HttpResult.timeout rfl

/-! ## C5 — disabled configuration -/

/-- A configuration with `enabled: false` and a nonempty topic list. -/
def disabledConfig : Config :=
  { enabled := some false
    video_topics := some ["Topic 1"]
    topic_selection_mode := none
    generation_interval_hours := none
    video_settings := none }

/-- C5: with `enabled: false`, `run_once` returns `False` immediately: the
cursor is untouched and the effect list is empty — no topic selection and no
network call. -/
theorem disabled_returns_failure (config : Config) (idx rand : Nat)
    (net : HttpResult) (hen : config.enabled = some false) :
    run_once config idx rand net = (false, idx, []) :=
  run_once_disabled config idx rand net (by rw [hen]; rfl)

/-- Witness for C5 at a concrete disabled configuration. -/
theorem disabled_returns_failure_witness :
    run_once disabledConfig 0 0 HttpResult.timeout = (false, 0, []) :=
  disabled_returns_failure disabledConfig 0 0 HttpResult.timeout rfl

/-! ## C8 — random mode -/

/-- A two-topic random-mode configuration. -/
def randomConfig : Config :=
  { enabled := some true
    video_topics := some ["Topic A", "Topic B"]
    topic_selection_mode := some "random"
    generation_interval_hours := none
    video_settings := none }

/-- C8: in random mode with a nonempty list, the returned topic is a member
of the configured list and the cursor is left unchanged; and — for every
configuration whatsoever — a call that changes the cursor can only happen
outside random mode, in which case it is the sequential increment by 1. -/
theorem random_mode_membership (config : Config) (idx rand : Nat)
    (hm : config.topic_selection_mode.getD "sequential" = "random")
    (hne : config.video_topics.getD [] ≠ []) :
    (∃ t, (get_next_topic config idx rand).1 = some t ∧
      t ∈ config.video_topics.getD []) ∧
    (get_next_topic config idx rand).2 = idx ∧
    (∀ (cfg : Config) (i r : Nat),
      (get_next_topic cfg i r).2 ≠ i →
      cfg.topic_selection_mode.getD "sequential" ≠ "random" ∧
      (get_next_topic cfg i r).2 = i + 1) := by
  have hpos : 0 < (config.video_topics.getD []).length :=
    List.length_pos.mpr hne
  refine ⟨?_, (get_next_topic_random config idx rand hm hne).2, ?_⟩
  · rw [(get_next_topic_random config idx rand hm hne).1,
      List.getElem?_eq_getElem (Nat.mod_lt _ hpos)]
    exact ⟨_, rfl, List.getElem_mem _⟩
  · intro cfg i r hch
    by_cases hE : cfg.video_topics.getD [] = []
    · rw [get_next_topic_empty cfg i r hE] at hch
      simp at hch
    · by_cases hm2 : cfg.topic_selection_mode.getD "sequential" = "random"
      · rw [(get_next_topic_random cfg i r hm2 hE).2] at hch
        simp at hch
      · exact ⟨hm2, (get_next_topic_sequential cfg i r hm2 hE).2⟩

/-- Witness for C8 at a concrete random-mode configuration. -/
theorem random_mode_membership_witness :
    (get_next_topic randomConfig 5 3).2 = 5 :=
  (random_mode_membership randomConfig 5 3 rfl (by decide)).2.1

/-! ## C10 — defaults for absent keys -/

/-- A configuration with no `enabled` key and no `topic_selection_mode`. -/
def absentKeysConfig : Config :=
  { enabled := none
    video_topics := some ["Topic 1", "Topic 2"]
    topic_selection_mode := none
    generation_interval_hours := none
    video_settings := none }

/-- C10: when the `enabled` key is absent, `run_once` treats the automation
as disabled — `False`, cursor untouched, no effects; and any
`topic_selection_mode` other than `"random"` (including an absent key)
selects sequentially: `topics[idx % N]` and cursor incremented. -/
theorem absent_keys_defaults (config : Config) (idx rand : Nat)
    (net : HttpResult) :
    (config.enabled = none →
      run_once config idx rand net = (false, idx, [])) ∧
    ((config.topic_selection_mode = none ∨
        ∃ m, config.topic_selection_mode = some m ∧ m ≠ "random") →
      config.video_topics.getD [] ≠ [] →
      (get_next_topic config idx rand).1 =
        (config.video_topics.getD [])[idx % (config.video_topics.getD []).length]? ∧
      (get_next_topic config idx rand).2 = idx + 1) := by
  constructor
  · intro hen
    exact run_once_disabled config idx rand net (by rw [hen]; rfl)
  · intro hm hne
    have hmode : config.topic_selection_mode.getD "sequential" ≠ "random" := by
      rcases hm with h | ⟨m, hm1, hm2⟩
      · rw [h]
        decide
      · rw [hm1]
        simpa using hm2
    exact get_next_topic_sequential config idx rand hmode hne

/-- Witness for C10 at a concrete configuration with both keys absent. -/
theorem absent_keys_defaults_witness :
    run_once absentKeysConfig 0 0 HttpResult.timeout = (false, 0, []) ∧
    (get_next_topic absentKeysConfig 0 0).2 = 1 :=
  ⟨(absent_keys_defaults absentKeysConfig 0 0 HttpResult.timeout).1 rfl,
   ((absent_keys_defaults absentKeysConfig 0 0 HttpResult.timeout).2
      (Or.inl rfl) (by decide)).2⟩

/-! ## C6 — outcome classification and no retry -/

/-- C6: `generate_video` returns `True` exactly when the backend call
completes with a passing HTTP status and the reported JSON status is
`"success"`; an application failure, connection failure, timeout, or any
other transport error each yields `False` (the function is total — no
exception escapes); and one cycle performs at most one network call — no
automatic retry. -/
theorem generate_video_outcomes (config : Config) (topic : String)
    (net : HttpResult) :
    (generate_video config topic net = true ↔
      net = HttpResult.response true (some "success")) ∧
    (∀ idx rand : Nat,
      network_call_count (run_once config idx rand net).2.2 ≤ 1) := by
  constructor
  · cases net with
    | response ok st => cases ok <;> simp [generate_video]
    | connectionError => simp [generate_video]
    | timeout => simp [generate_video]
    | requestException => simp [generate_video]
  · intro idx rand
    by_cases hen : config.enabled.getD false = false
    · rw [run_once_disabled config idx rand net hen]
      simp [network_call_count]
    · cases hg : (get_next_topic config idx rand).1 with
      | none =>
          rw [run_once_no_topic config idx rand net hen hg]
          simp [network_call_count]
      | some t =>
          by_cases ht : t = ""
          · rw [run_once, if_neg hen]
            simp only [hg, if_pos ht]
            simp [network_call_count]
          · rw [run_once_selected config idx rand net t hen hg ht]
            simp [network_call_count]

/-! ## C7 — interval resolution -/

/-- C7: `run_daemon` resolves the effective interval as the explicit
`interval_hours` argument when given, else the configuration value
`generation_interval_hours` when present, else the built-in
`DEFAULT_INTERVAL_HOURS = 24`. -/
theorem interval_resolution (config : Config) (interval_hours : Option Rat) :
    (∀ x, interval_hours = some x →
      resolve_interval config interval_hours = x) ∧
    (interval_hours = none →
      ∀ g, config.generation_interval_hours = some g →
        resolve_interval config interval_hours = g) ∧
    (interval_hours = none → config.generation_interval_hours = none →
      resolve_interval config interval_hours = 24) := by
  refine ⟨?_, ?_, ?_⟩ <;> intros <;>
    simp_all [resolve_interval, DEFAULT_INTERVAL_HOURS]

/-- Witness for C7: explicit override wins; with neither the override nor
the configuration key, the default of 24 hours applies. -/
theorem interval_resolution_witness :
    resolve_interval seqConfig3 (some 12) = 12 ∧
    resolve_interval seqConfig3 none = 24 :=
  ⟨(interval_resolution seqConfig3 (some 12)).1 12 rfl,
   (interval_resolution seqConfig3 none).2.2 rfl rfl⟩

/-! ## C9 — daemon scheduling -/

/-- The new cursor does not depend on the random draw. -/
theorem get_next_topic_index_rand (config : Config) (idx rand rand2 : Nat) :
    (get_next_topic config idx rand).2 = (get_next_topic config idx rand2).2 := by
  by_cases hE : config.video_topics.getD [] = []
  · rw [get_next_topic_empty config idx rand hE,
      get_next_topic_empty config idx rand2 hE]
  · by_cases hm : config.topic_selection_mode.getD "sequential" = "random"
    · rw [(get_next_topic_random config idx rand hm hE).2,
        (get_next_topic_random config idx rand2 hm hE).2]
    · rw [(get_next_topic_sequential config idx rand hm hE).2,
        (get_next_topic_sequential config idx rand2 hm hE).2]

/-- When enabled, the cursor after `run_once` is the cursor after topic
selection, whatever the selected topic and network outcome. -/
theorem run_once_index (config : Config) (idx rand : Nat) (net : HttpResult)
    (hen : ¬ config.enabled.getD false = false) :
    (run_once config idx rand net).2.1 = (get_next_topic config idx rand).2 := by
  cases hg : (get_next_topic config idx rand).1 with
  | none => rw [run_once_no_topic config idx rand net hen hg]
  | some t =>
      by_cases ht : t = ""
      · rw [run_once, if_neg hen]
        simp only [hg, if_pos ht]
      · rw [run_once_selected config idx rand net t hen hg ht]

/-- The cursor after a cycle depends neither on the random draw nor on the
network outcome — success and failure evolve the state identically. -/
theorem run_once_index_independent (config : Config) (idx rand rand2 : Nat)
    (net net2 : HttpResult) :
    (run_once config idx rand net).2.1 = (run_once config idx rand2 net2).2.1 := by
  by_cases hen : config.enabled.getD false = false
  · rw [run_once_disabled config idx rand net hen,
      run_once_disabled config idx rand2 net2 hen]
  · rw [run_once_index config idx rand net hen,
      run_once_index config idx rand2 net2 hen,
      get_next_topic_index_rand config idx rand rand2]

/-- The `while` loop raises `KeyboardInterrupt` exactly when the event list
contains an interrupt. -/
theorem daemon_loop_raised_iff (config : Config) (I : Rat) :
    ∀ (events : List CycleEvent) (t : Rat) (idx : Nat),
      (∃ i, daemon_loop config I events t idx = LoopResult.raised i) ↔
        CycleEvent.interrupt ∈ events := by
  intro events
  induction events with
  | nil =>
      intro t idx
      simp [daemon_loop]
  | cons e rest ih =>
      intro t idx
      cases e with
      | interrupt => simp [daemon_loop]
      | cycle d rand net =>
          simp only [daemon_loop]
          rw [ih]
          simp

/-- C9: in daemon mode (a) the loop terminates — with the clean `stopped`
outcome, the interrupt being caught, logged and not re-raised — exactly when
an external interrupt occurs; (b) after every cycle the next run time is
`start_time + interval`, and the loop sleeps (waking exactly at that time)
precisely when the current time is earlier, otherwise proceeding
immediately, so the next cycle starts at `max (start_time + interval) now`;
(c) success and failure are treated identically: the loop result depends
only on the scheduling shape of the events (interrupts and durations), not
on the network outcomes or random draws. -/
theorem daemon_schedule_spec :
    (∀ (config : Config) (iv : Option Rat) (t0 : Rat)
        (events : List CycleEvent),
      (∃ i, run_daemon config iv t0 events = DaemonOutcome.stopped i) ↔
        CycleEvent.interrupt ∈ events) ∧
    (∀ I t now : Rat,
      ((daemon_step I t now).1 = true ↔ now < t + I) ∧
      (daemon_step I t now).2 = max (t + I) now) ∧
    (∀ (config : Config) (I : Rat) (events evs2 : List CycleEvent),
      events.map CycleEvent.shape = evs2.map CycleEvent.shape →
      ∀ (t : Rat) (idx : Nat),
        daemon_loop config I events t idx =
          daemon_loop config I evs2 t idx) := by
  refine ⟨?_, ?_, ?_⟩
  · intro config iv t0 events
    rw [← daemon_loop_raised_iff config (resolve_interval config iv * 3600)
        events t0 0]
    rw [run_daemon]
    cases h : daemon_loop config (resolve_interval config iv * 3600)
        events t0 0 with
    | raised i => simp [h]
    | outOfFuel t i => simp [h]
  · intro I t now
    constructor
    · rw [daemon_step]
      split
      · rename_i h
        exact iff_of_true rfl (by linarith)
      · rename_i h
        exact iff_of_false (by simp) (by intro hc; exact h (by linarith))
    · rw [daemon_step]
      split
      · rename_i h
        show now + (t + I - now) = max (t + I) now
        rw [max_eq_left (by linarith)]
        ring
      · rename_i h
        show now = max (t + I) now
        rw [max_eq_right (by linarith [not_lt.mp h])]
  · intro config I events
    induction events with
    | nil =>
        intro evs2 hsh t idx
        cases evs2 with
        | nil => rfl
        | cons e r => simp at hsh
    | cons e rest ih =>
        intro evs2 hsh t idx
        cases evs2 with
        | nil => simp at hsh
        | cons e2 r2 =>
            simp only [List.map_cons, List.cons.injEq] at hsh
            cases e with
            | interrupt =>
                cases e2 with
                | interrupt => simp [daemon_loop]
                | cycle d2 rand2 net2 => simp [CycleEvent.shape] at hsh
            | cycle d rand net =>
                cases e2 with
                | interrupt => simp [CycleEvent.shape] at hsh
                | cycle d2 rand2 net2 =>
                    have hd : d = d2 := by
                      simpa [CycleEvent.shape] using hsh.1
                    subst hd
                    simp only [daemon_loop]
                    rw [run_once_index_independent config idx rand rand2 net net2]
                    exact ih r2 hsh.2 _ _

/-- Witness for C9: a single external interrupt stops the daemon cleanly. -/
theorem daemon_schedule_spec_witness :
    ∃ i, run_daemon seqConfig3 none 0 [CycleEvent.interrupt] =
      DaemonOutcome.stopped i :=
  (daemon_schedule_spec.1 seqConfig3 none 0 [CycleEvent.interrupt]).mpr
    (List.mem_singleton.mpr rfl)
